import Mathlib

/-
  Shallow embedding of src/main.py (FastAPI service: two-step Telegram login
  plus panic-button alert sending, Firestore-backed session store).

  External collaborators (Telethon transport, Firestore) are modelled by an
  environment record giving the outcome of each network/store call; the
  handlers become pure functions from environment, state and request to an
  outcome holding the HTTP response, the new state and a trace of the
  transport/store operations the handler invoked.

  State modelled:
    - temp_login_cache : dict phone -> phone_code_hash (main.py line 43);
      the cached dict value has a single key, so the hash string is stored
      directly.
    - the Firestore users collection : dict phone -> document, where a
      document carries the phone field and an optional session_string field
      (a document written by other means may lack the field, which the code
      treats like an empty string via Python falsiness).

  Python floats (latitude, longitude) only pass through unchanged into the
  location attachment, so they are modelled by Int payloads.

  A failed connect is modelled as opening no connection (no connect event);
  Python exceptions raised by a modelled call are the error branch of an
  Except value carrying the exception text.
-/

namespace ApiTelegram

/-- Transport and store operations invoked by a handler, in invocation order.
Events are recorded at the moment the call is made, whether or not the call
then succeeds. -/
inductive Event where
  | connect
  | disconnect
  | sendCodeRequest (phone : String)
  | signInCode (phone code hash : String)
  | signInPassword (pw : String)
  | isAuthorized
  | sendMessage (dest msg : String)
  | sendFile (dest : String) (lat lng : Int)
  | dbGet (phone : String)
  | dbSetUsers (phone : String)
  deriving DecidableEq, Repr

/-- HTTP result of a handler: a JSON success body (status, message), a
raised HTTPException (status code, detail), or an exception that escaped the
handler (the framework turns it into a 500). -/
inductive HResp where
  | ok (status message : String)
  | httpError (code : Nat) (detail : String)
  | unhandled (msg : String)
  deriving DecidableEq, Repr

/-- A document of the users collection (main.py lines 150-154 write phone,
session_string and a server timestamp; the timestamp carries no information
used by any handler and is omitted). -/
structure UserDoc where
  phone : String
  session_string : Option String
  deriving DecidableEq, Repr

/-- temp_login_cache: phone to phone_code_hash. -/
abbrev Cache := List (String × String)

/-- The users collection: phone to document. -/
abbrev Users := List (String × UserDoc)

/-- Python falsiness of an optional string: None and the empty string are
falsy (used by `if not request.password` and `if not session_str`). -/
def strBlank : Option String → Bool
  | none => true
  | some s => s == ""

/-- Result of a handler: response, updated temp_login_cache, updated users
collection, trace of invoked operations. -/
structure Outcome where
  resp : HResp
  cache : Cache
  users : Users
  trace : List Event
  deriving DecidableEq, Repr

/-- Dict overwrite for the users collection: doc_ref.set replaces the whole
document under the key. -/
def setKey (k : String) (v : UserDoc) (us : Users) : Users :=
  (k, v) :: us.filter (fun p => p.1 != k)

/-- Dict deletion for temp_login_cache: del temp_login_cache[phone]. -/
def delKey (k : String) (c : Cache) : Cache :=
  c.filter (fun p => p.1 != k)

/-- Environment for login_step_1: outcome of client.connect and of
client.send_code_request (on success, the returned phone_code_hash). -/
structure StartEnv where
  connect : Except String Unit
  sendCode : Except String String
  deriving Repr

/-- main.py lines 69-94, POST /autenticacao/iniciar. connect (line 76) is
outside the try/finally: a connect failure escapes unhandled and the finally
clause never runs, but no connection was opened. -/
def login_step_1 (env : StartEnv) (cache : Cache) (users : Users)
    (req : String) : Outcome :=
  match env.connect with
  | .error m => ⟨.unhandled m, cache, users, []⟩
  | .ok _ =>
    match env.sendCode with
    | .ok hash =>
        ⟨.ok "sucesso" ("Código enviado para " ++ req ++ ". Verifique seu Telegram/SMS."),
         (req, hash) :: cache.filter (fun p => p.1 != req),
         users,
         [.connect, .sendCodeRequest req, .disconnect]⟩
    | .error m =>
        ⟨.httpError 400 ("Erro ao solicitar código: " ++ m),
         cache, users,
         [.connect, .sendCodeRequest req, .disconnect]⟩

/-- Request body of POST /autenticacao/finalizar. -/
structure LoginCompleteRequest where
  phone : String
  code : String
  password : Option String
  deriving DecidableEq, Repr

/-- Outcome of client.sign_in with the code (main.py lines 112-116):
signed in, SessionPasswordNeededError, or any other exception. -/
inductive SignInCodeResult where
  | authorized
  | passwordNeeded
  | error (msg : String)
  deriving DecidableEq, Repr

/-- Environment for login_step_2: outcomes of connect, the two sign_in
calls, the session string client.session.save() returns, whether db is
non-None, and the outcome of doc_ref.set. -/
structure FinishEnv where
  connect : Except String Unit
  signInCode : SignInCodeResult
  signInPassword : Except String Unit
  sessionSave : String
  dbConnected : Bool
  dbSet : Except String Unit
  deriving Repr

/-- main.py lines 138-164: the code after a successful sign-in. Saves the
session string, disconnects, then requires db and writes the users document;
only after a successful write is the cache entry deleted. `tr` is the trace
accumulated so far. -/
def finishSuccess (env : FinishEnv) (cache : Cache) (users : Users)
    (req : LoginCompleteRequest) (tr : List Event) : Outcome :=
  let tr := tr ++ [Event.disconnect]
  if !env.dbConnected then
    ⟨.httpError 500 "Erro interno: Banco de dados Firebase não conectado.",
     cache, users, tr⟩
  else
    match env.dbSet with
    | .error m =>
        ⟨.httpError 500 ("Logou no Telegram, mas erro ao salvar no Firebase: " ++ m),
         cache, users, tr ++ [.dbSetUsers req.phone]⟩
    | .ok _ =>
        ⟨.ok "sucesso" "Login realizado! Sessão salva no banco de dados.",
         delKey req.phone cache,
         setKey req.phone ⟨req.phone, some env.sessionSave⟩ users,
         tr ++ [.dbSetUsers req.phone]⟩

/-- main.py lines 97-164, POST /autenticacao/finalizar. The cache is checked
first (400 if absent); connect (line 108) is outside the try; the try around
sign_in catches SessionPasswordNeededError (2FA branch) and any other
exception (400). Each failure branch disconnects before raising. -/
def login_step_2 (env : FinishEnv) (cache : Cache) (users : Users)
    (req : LoginCompleteRequest) : Outcome :=
  match cache.lookup req.phone with
  | none =>
      ⟨.httpError 400 "Sessão não encontrada. Faça o passo 1 (/autenticacao/iniciar) novamente.",
       cache, users, []⟩
  | some hash =>
    match env.connect with
    | .error m => ⟨.unhandled m, cache, users, []⟩
    | .ok _ =>
      let tr := [Event.connect, Event.signInCode req.phone req.code hash]
      match env.signInCode with
      | .authorized => finishSuccess env cache users req tr
      | .error m =>
          ⟨.httpError 400 ("Erro no login (Código inválido?): " ++ m),
           cache, users, tr ++ [.disconnect]⟩
      | .passwordNeeded =>
        match req.password with
        | none =>
            ⟨.httpError 401 "Esta conta possui Senha de 2 Fatores (2FA). Preencha o campo \x27password\x27.",
             cache, users, tr ++ [.disconnect]⟩
        | some p =>
          if p == "" then
            ⟨.httpError 401 "Esta conta possui Senha de 2 Fatores (2FA). Preencha o campo \x27password\x27.",
             cache, users, tr ++ [.disconnect]⟩
          else
            match env.signInPassword with
            | .error m =>
                ⟨.httpError 401 ("Senha 2FA incorreta: " ++ m),
                 cache, users, tr ++ [.signInPassword p, .disconnect]⟩
            | .ok _ =>
                finishSuccess env cache users req (tr ++ [.signInPassword p])

/-- Request body of POST /enviar-alerta. -/
structure AlertRequest where
  phone : String
  contact_phone : String
  message : String
  latitude : Int
  longitude : Int
  deriving DecidableEq, Repr

/-- Environment for send_alert: whether db is non-None, outcomes of connect,
is_user_authorized, send_message and send_file. -/
structure AlertEnv where
  dbConnected : Bool
  connect : Except String Unit
  authorized : Except String Bool
  sendMessage : Except String Unit
  sendFile : Except String Unit
  deriving Repr

/-- Emergency text prefix prepended to the alert message (main.py line 200). -/
def alertPrefixStr : String := "🚨 *PEDIDO DE SOCORRO* 🚨\n\n"

/-- Detail of the 500 raised by the except-Exception clause of send_alert
(main.py line 214). -/
def failSend (msg : String) : String := "Falha ao enviar pelo Telegram: " ++ msg

/-- main.py lines 168-217, POST /enviar-alerta. The db check, document
lookup and token check happen before the try. Inside the try: connect,
is_user_authorized, send_message, send_file. The except clause catches
every Exception — including the HTTPException(401) raised when the session
is no longer authorized, since fastapi.HTTPException subclasses Exception —
and re-raises it as a 500 whose detail wraps str(e); for the caught
HTTPException, str(e) is the status code, a colon and the detail. The
finally clause always disconnects. -/
def send_alert (env : AlertEnv) (cache : Cache) (users : Users)
    (alert : AlertRequest) : Outcome :=
  if !env.dbConnected then
    ⟨.httpError 500 "Banco de dados desconectado.", cache, users, []⟩
  else
    let tr0 := [Event.dbGet alert.phone]
    match users.lookup alert.phone with
    | none =>
        ⟨.httpError 404 "Usuário não encontrado. Por favor, faça login na API primeiro.",
         cache, users, tr0⟩
    | some doc =>
      if strBlank doc.session_string then
        ⟨.httpError 401 "Sessão inválida no banco de dados.", cache, users, tr0⟩
      else
        match env.connect with
        | .error m =>
            ⟨.httpError 500 (failSend m), cache, users, tr0 ++ [.disconnect]⟩
        | .ok _ =>
          let tr1 := tr0 ++ [Event.connect, Event.isAuthorized]
          match env.authorized with
          | .error m =>
              ⟨.httpError 500 (failSend m), cache, users, tr1 ++ [.disconnect]⟩
          | .ok false =>
              ⟨.httpError 500 (failSend ("401: O login expirou. Faça autenticação novamente.")),
               cache, users, tr1 ++ [.disconnect]⟩
          | .ok true =>
            let msg := alertPrefixStr ++ alert.message
            match env.sendMessage with
            | .error m =>
                ⟨.httpError 500 (failSend m), cache, users,
                 tr1 ++ [.sendMessage alert.contact_phone msg, .disconnect]⟩
            | .ok _ =>
              match env.sendFile with
              | .error m =>
                  ⟨.httpError 500 (failSend m), cache, users,
                   tr1 ++ [.sendMessage alert.contact_phone msg,
                           .sendFile alert.contact_phone alert.latitude alert.longitude,
                           .disconnect]⟩
              | .ok _ =>
                  ⟨.ok "sucesso" ("Alerta enviado para " ++ alert.contact_phone),
                   cache, users,
                   tr1 ++ [.sendMessage alert.contact_phone msg,
                           .sendFile alert.contact_phone alert.latitude alert.longitude,
                           .disconnect]⟩

/-- An event is a transport send operation. -/
def Event.isSend : Event → Bool
  | .sendMessage _ _ => true
  | .sendFile _ _ _ => true
  | _ => false

/-- The send operations of a trace, in order. -/
def sends (tr : List Event) : List Event := tr.filter Event.isSend

/-- An event is a store (Firestore) operation. -/
def Event.isDbOp : Event → Bool
  | .dbGet _ => true
  | .dbSetUsers _ => true
  | _ => false

/-- The store operations of a trace, in order. -/
def dbOps (tr : List Event) : List Event := tr.filter Event.isDbOp

/-- Whether a transport connection is still open after the trace: connect
opens, disconnect closes, nothing is open initially. -/
def connOpen (tr : List Event) : Bool :=
  tr.foldl (fun acc e =>
    match e with
    | .connect => true
    | .disconnect => false
    | _ => acc) false

/-- The sign-in phase of login_step_2 ends authorized: either the code alone
signs in, or the network demands a second factor, a non-blank password was
supplied and the password sign-in succeeds. -/
def signInSucceeds (env : FinishEnv) (req : LoginCompleteRequest) : Prop :=
  env.signInCode = .authorized ∨
    (env.signInCode = .passwordNeeded ∧ strBlank req.password = false ∧
      env.signInPassword = .ok ())

/-- The users collection holds a usable (non-falsy) session token for the
phone. -/
def hasStoredSession (users : Users) (phone : String) : Bool :=
  match users.lookup phone with
  | none => false
  | some doc => !(strBlank doc.session_string)

end ApiTelegram

namespace ApiTelegram

/-- Looking up a key in a list from which every pair with that key was
filtered out yields none (dict deletion really deletes). -/
theorem lookup_filter_ne_self {β : Type} (k : String) (l : List (String × β)) :
    (l.filter (fun p => p.1 != k)).lookup k = none := by
  induction l with
  | nil => rfl
  | cons a t ih =>
    by_cases h : a.1 = k
    · simpa [List.filter_cons, h] using ih
    · have hb : (k == a.1) = false := beq_eq_false_iff_ne.mpr (Ne.symm h)
      simp [List.filter_cons, List.lookup, h, ih, hb, bne_iff_ne]

/-- Claim C2: when a pending record exists, the connection and the sign-in
phase succeed, db is connected and the users write succeeds, login_step_2
returns the success body, the users collection afterwards maps the phone to
a document holding the session string the transport produced (overwriting
whatever was there), and the pending cache entry for the phone is gone. -/
theorem C2_login_finish_success (env : FinishEnv) (cache : Cache) (users : Users)
    (req : LoginCompleteRequest) (hash : String)
    (hc : cache.lookup req.phone = some hash)
    (hcon : env.connect = .ok ())
    (hsi : signInSucceeds env req)
    (hdb : env.dbConnected = true)
    (hset : env.dbSet = .ok ()) :
    (login_step_2 env cache users req).resp =
        .ok "sucesso" "Login realizado! Sessão salva no banco de dados."
    ∧ (login_step_2 env cache users req).users.lookup req.phone =
        some ⟨req.phone, some env.sessionSave⟩
    ∧ (login_step_2 env cache users req).cache.lookup req.phone = none := by
  rcases hsi with hsi | ⟨hsi, hpw, hsp⟩
  · simp [login_step_2, hc, hcon, hsi, finishSuccess, hdb, hset, setKey, delKey,
      List.lookup, lookup_filter_ne_self]
  · cases hp : req.password with
    | none => rw [hp] at hpw; simp [strBlank] at hpw
    | some p =>
      rw [hp] at hpw
      simp [strBlank] at hpw
      simp [login_step_2, hc, hcon, hsi, hp, hpw, hsp, finishSuccess, hdb, hset,
        setKey, delKey, List.lookup, lookup_filter_ne_self]

/-- Witness for C2 at a concrete input: the hypotheses hold and the theorem
applies. -/
theorem C2_login_finish_success_witness :
    ([("+5511999999999", "h4sh")] : Cache).lookup "+5511999999999" = some "h4sh"
    ∧ ((login_step_2 ⟨.ok (), .authorized, .ok (), "sess123", true, .ok ()⟩
          [("+5511999999999", "h4sh")] [] ⟨"+5511999999999", "12345", none⟩).resp =
        .ok "sucesso" "Login realizado! Sessão salva no banco de dados."
      ∧ (login_step_2 ⟨.ok (), .authorized, .ok (), "sess123", true, .ok ()⟩
          [("+5511999999999", "h4sh")] [] ⟨"+5511999999999", "12345", none⟩).users.lookup
          "+5511999999999" = some ⟨"+5511999999999", some "sess123"⟩
      ∧ (login_step_2 ⟨.ok (), .authorized, .ok (), "sess123", true, .ok ()⟩
          [("+5511999999999", "h4sh")] [] ⟨"+5511999999999", "12345", none⟩).cache.lookup
          "+5511999999999" = none) :=
  ⟨by decide,
   C2_login_finish_success ⟨.ok (), .authorized, .ok (), "sess123", true, .ok ()⟩
     [("+5511999999999", "h4sh")] [] ⟨"+5511999999999", "12345", none⟩ "h4sh"
     (by decide) rfl (Or.inl rfl) rfl rfl⟩

/-- Claim C3: a login-finish call with no pending cache entry fails with 400
telling the caller to redo step 1, leaves the users collection untouched and
performs no store operation at all (the trace holds no store event). -/
theorem C3_no_pending_record (env : FinishEnv) (cache : Cache) (users : Users)
    (req : LoginCompleteRequest)
    (h : cache.lookup req.phone = none) :
    (login_step_2 env cache users req).resp =
        .httpError 400 "Sessão não encontrada. Faça o passo 1 (/autenticacao/iniciar) novamente."
    ∧ (login_step_2 env cache users req).users = users
    ∧ dbOps (login_step_2 env cache users req).trace = [] := by
  simp [login_step_2, h, dbOps]

/-- Witness for C3 at a concrete input. -/
theorem C3_no_pending_record_witness :
    ([] : Cache).lookup "+5511999999999" = none
    ∧ ((login_step_2 ⟨.ok (), .authorized, .ok (), "s", true, .ok ()⟩ [] []
          ⟨"+5511999999999", "12345", none⟩).resp =
        .httpError 400 "Sessão não encontrada. Faça o passo 1 (/autenticacao/iniciar) novamente."
      ∧ (login_step_2 ⟨.ok (), .authorized, .ok (), "s", true, .ok ()⟩ [] []
          ⟨"+5511999999999", "12345", none⟩).users = []
      ∧ dbOps (login_step_2 ⟨.ok (), .authorized, .ok (), "s", true, .ok ()⟩ [] []
          ⟨"+5511999999999", "12345", none⟩).trace = []) :=
  ⟨rfl,
   C3_no_pending_record ⟨.ok (), .authorized, .ok (), "s", true, .ok ()⟩ [] []
     ⟨"+5511999999999", "12345", none⟩ rfl⟩

/-- Claim C4: when the network demands a second factor and the request
carries no (or a blank) password, login_step_2 fails with 401 and the detail
literally naming the missing password field, the users collection is
untouched and no store operation happens. -/
theorem C4_missing_2fa_password (env : FinishEnv) (cache : Cache) (users : Users)
    (req : LoginCompleteRequest) (hash : String)
    (hc : cache.lookup req.phone = some hash)
    (hcon : env.connect = .ok ())
    (hsi : env.signInCode = .passwordNeeded)
    (hpw : strBlank req.password = true) :
    (login_step_2 env cache users req).resp =
        .httpError 401 "Esta conta possui Senha de 2 Fatores (2FA). Preencha o campo \x27password\x27."
    ∧ (login_step_2 env cache users req).users = users
    ∧ dbOps (login_step_2 env cache users req).trace = [] := by
  cases hp : req.password with
  | none =>
    simp [login_step_2, hc, hcon, hsi, hp, dbOps, Event.isDbOp]
  | some p =>
    rw [hp] at hpw
    simp [strBlank] at hpw
    simp [login_step_2, hc, hcon, hsi, hp, hpw, dbOps, Event.isDbOp]

/-- Witness for C4 at a concrete input. -/
theorem C4_missing_2fa_password_witness :
    ([("+5511999999999", "h4sh")] : Cache).lookup "+5511999999999" = some "h4sh"
    ∧ strBlank none = true
    ∧ ((login_step_2 ⟨.ok (), .passwordNeeded, .ok (), "s", true, .ok ()⟩
          [("+5511999999999", "h4sh")] [] ⟨"+5511999999999", "12345", none⟩).resp =
        .httpError 401 "Esta conta possui Senha de 2 Fatores (2FA). Preencha o campo \x27password\x27."
      ∧ (login_step_2 ⟨.ok (), .passwordNeeded, .ok (), "s", true, .ok ()⟩
          [("+5511999999999", "h4sh")] [] ⟨"+5511999999999", "12345", none⟩).users = []
      ∧ dbOps (login_step_2 ⟨.ok (), .passwordNeeded, .ok (), "s", true, .ok ()⟩
          [("+5511999999999", "h4sh")] [] ⟨"+5511999999999", "12345", none⟩).trace = []) :=
  ⟨by decide, rfl,
   C4_missing_2fa_password ⟨.ok (), .passwordNeeded, .ok (), "s", true, .ok ()⟩
     [("+5511999999999", "h4sh")] [] ⟨"+5511999999999", "12345", none⟩ "h4sh"
     (by decide) rfl rfl rfl⟩

/-- Claim C5: when the sign-in phase succeeds, db is connected but the users
write raises, login_step_2 fails with 500 and a detail beginning with
"Logou no Telegram, mas" — the message explicitly notes the upstream
Telegram login already succeeded. -/
theorem C5_store_write_failure_notes_login (env : FinishEnv) (cache : Cache)
    (users : Users) (req : LoginCompleteRequest) (hash m : String)
    (hc : cache.lookup req.phone = some hash)
    (hcon : env.connect = .ok ())
    (hsi : signInSucceeds env req)
    (hdb : env.dbConnected = true)
    (hset : env.dbSet = .error m) :
    (login_step_2 env cache users req).resp =
      .httpError 500 ("Logou no Telegram, mas erro ao salvar no Firebase: " ++ m) := by
  rcases hsi with hsi | ⟨hsi, hpw, hsp⟩
  · simp [login_step_2, hc, hcon, hsi, finishSuccess, hdb, hset]
  · cases hp : req.password with
    | none => rw [hp] at hpw; simp [strBlank] at hpw
    | some p =>
      rw [hp] at hpw
      simp [strBlank] at hpw
      simp [login_step_2, hc, hcon, hsi, hp, hpw, hsp, finishSuccess, hdb, hset]

/-- Witness for C5 at a concrete input. -/
theorem C5_store_write_failure_notes_login_witness :
    ([("+5511999999999", "h4sh")] : Cache).lookup "+5511999999999" = some "h4sh"
    ∧ (login_step_2 ⟨.ok (), .authorized, .ok (), "s", true, .error "boom"⟩
        [("+5511999999999", "h4sh")] [] ⟨"+5511999999999", "12345", none⟩).resp =
      .httpError 500 ("Logou no Telegram, mas erro ao salvar no Firebase: " ++ "boom") :=
  ⟨by decide,
   C5_store_write_failure_notes_login ⟨.ok (), .authorized, .ok (), "s", true, .error "boom"⟩
     [("+5511999999999", "h4sh")] [] ⟨"+5511999999999", "12345", none⟩ "h4sh" "boom"
     (by decide) rfl (Or.inl rfl) rfl rfl⟩

/-- Claim C6: after any of the three handlers returns, on every exit path,
no transport connection opened by the handler is still open (a failed
connect is modelled as opening no connection; the one unhandled-exception
exit, connect itself raising, therefore leaves nothing open). -/
theorem C6_always_disconnects (se : StartEnv) (fe : FinishEnv) (ae : AlertEnv)
    (cache : Cache) (users : Users) (r1 : String) (r2 : LoginCompleteRequest)
    (r3 : AlertRequest) :
    connOpen (login_step_1 se cache users r1).trace = false
    ∧ connOpen (login_step_2 fe cache users r2).trace = false
    ∧ connOpen (send_alert ae cache users r3).trace = false := by
  refine ⟨?_, ?_, ?_⟩
  · unfold login_step_1
    repeat' split
    all_goals rfl
  · unfold login_step_2 finishSuccess
    repeat' split
    all_goals rfl
  · unfold send_alert
    repeat' split
    all_goals rfl

/-- Claim C7: whenever send_alert returns a success body, the send
operations in its trace are exactly the emergency text (prefix followed by
the request message) and then the location built from the request
coordinates — two sends, text strictly before location. -/
theorem C7_success_sends_text_then_location (env : AlertEnv) (cache : Cache)
    (users : Users) (alert : AlertRequest) (st msg : String) :
    (send_alert env cache users alert).resp = .ok st msg →
    sends (send_alert env cache users alert).trace =
      [.sendMessage alert.contact_phone (alertPrefixStr ++ alert.message),
       .sendFile alert.contact_phone alert.latitude alert.longitude] := by
  unfold send_alert
  repeat' split
  all_goals intro h
  all_goals first
    | rfl
    | simp at h

/-- Witness for C7 at a concrete input. -/
theorem C7_success_sends_text_then_location_witness :
    (send_alert ⟨true, .ok (), .ok true, .ok (), .ok ()⟩ []
        [("+5511999999999", ⟨"+5511999999999", some "tok"⟩)]
        ⟨"+5511999999999", "+5571985534124", "test", 12, 13⟩).resp =
      .ok "sucesso" "Alerta enviado para +5571985534124"
    ∧ sends (send_alert ⟨true, .ok (), .ok true, .ok (), .ok ()⟩ []
        [("+5511999999999", ⟨"+5511999999999", some "tok"⟩)]
        ⟨"+5511999999999", "+5571985534124", "test", 12, 13⟩).trace =
      [.sendMessage "+5571985534124" (alertPrefixStr ++ "test"),
       .sendFile "+5571985534124" 12 13] :=
  ⟨by decide,
   C7_success_sends_text_then_location ⟨true, .ok (), .ok true, .ok (), .ok ()⟩ []
     [("+5511999999999", ⟨"+5511999999999", some "tok"⟩)]
     ⟨"+5511999999999", "+5571985534124", "test", 12, 13⟩
     "sucesso" "Alerta enviado para +5571985534124" (by decide)⟩

/-- Claim C8: with the store reachable, a send-alert whose sender phone has
no users document, or a document whose session token is absent or blank,
fails with the 404 or the 401 detail respectively, and the trace holds no
send operation. -/
theorem C8_not_logged_in (env : AlertEnv) (cache : Cache) (users : Users)
    (alert : AlertRequest)
    (hdb : env.dbConnected = true)
    (h : hasStoredSession users alert.phone = false) :
    ((send_alert env cache users alert).resp =
        .httpError 404 "Usuário não encontrado. Por favor, faça login na API primeiro."
      ∨ (send_alert env cache users alert).resp =
        .httpError 401 "Sessão inválida no banco de dados.")
    ∧ sends (send_alert env cache users alert).trace = [] := by
  unfold hasStoredSession at h
  cases hl : users.lookup alert.phone with
  | none =>
    simp [send_alert, hdb, hl, sends, Event.isSend]
  | some doc =>
    rw [hl] at h
    simp at h
    simp [send_alert, hdb, hl, h, sends, Event.isSend]

/-- Witness for C8 at a concrete input. -/
theorem C8_not_logged_in_witness :
    hasStoredSession [] "+5511999999999" = false
    ∧ (((send_alert ⟨true, .ok (), .ok true, .ok (), .ok ()⟩ [] []
          ⟨"+5511999999999", "+5571985534124", "x", 12, 13⟩).resp =
        .httpError 404 "Usuário não encontrado. Por favor, faça login na API primeiro."
      ∨ (send_alert ⟨true, .ok (), .ok true, .ok (), .ok ()⟩ [] []
          ⟨"+5511999999999", "+5571985534124", "x", 12, 13⟩).resp =
        .httpError 401 "Sessão inválida no banco de dados.")
      ∧ sends (send_alert ⟨true, .ok (), .ok true, .ok (), .ok ()⟩ [] []
          ⟨"+5511999999999", "+5571985534124", "x", 12, 13⟩).trace = []) :=
  ⟨rfl,
   C8_not_logged_in ⟨true, .ok (), .ok true, .ok (), .ok ()⟩ [] []
     ⟨"+5511999999999", "+5571985534124", "x", 12, 13⟩ rfl rfl⟩

/-- Claim C9: when the sign-in phase succeeds but the operation then takes a
500 path (db not connected, or the users write raising), the pending cache
entry survives, the users collection is untouched — so the freshly obtained
session token is not stored — and the response is exactly one of the two 500
errors, whose detail is either the fixed db-not-connected message or the
fixed store-failure message followed by the store's own error text: neither
detail is built from the session token, so the token is not returned to the
caller either. -/
theorem C9_failed_store_keeps_pending (env : FinishEnv) (cache : Cache)
    (users : Users) (req : LoginCompleteRequest) (hash : String)
    (hc : cache.lookup req.phone = some hash)
    (hcon : env.connect = .ok ())
    (hsi : signInSucceeds env req)
    (hfail : env.dbConnected = false ∨ ∃ m, env.dbSet = .error m) :
    (login_step_2 env cache users req).cache = cache
    ∧ (login_step_2 env cache users req).users = users
    ∧ ((login_step_2 env cache users req).resp =
         .httpError 500 "Erro interno: Banco de dados Firebase não conectado."
       ∨ ∃ m, env.dbSet = .error m
           ∧ (login_step_2 env cache users req).resp =
             .httpError 500 ("Logou no Telegram, mas erro ao salvar no Firebase: " ++ m)) := by
  rcases hsi with hsi | ⟨hsi, hpw, hsp⟩
  · rcases hfail with hdb | ⟨m, hm⟩
    · simp [login_step_2, hc, hcon, hsi, finishSuccess, hdb]
    · cases hdbc : env.dbConnected
      · simp [login_step_2, hc, hcon, hsi, finishSuccess, hdbc]
      · simp [login_step_2, hc, hcon, hsi, finishSuccess, hdbc, hm]
  · cases hp : req.password with
    | none => rw [hp] at hpw; simp [strBlank] at hpw
    | some p =>
      rw [hp] at hpw
      simp [strBlank] at hpw
      rcases hfail with hdb | ⟨m, hm⟩
      · simp [login_step_2, hc, hcon, hsi, hp, hpw, hsp, finishSuccess, hdb]
      · cases hdbc : env.dbConnected
        · simp [login_step_2, hc, hcon, hsi, hp, hpw, hsp, finishSuccess, hdbc]
        · simp [login_step_2, hc, hcon, hsi, hp, hpw, hsp, finishSuccess, hdbc, hm]

/-- Witness for C9 at a concrete input (db not connected). -/
theorem C9_failed_store_keeps_pending_witness :
    ([("+5511999999999", "h4sh")] : Cache).lookup "+5511999999999" = some "h4sh"
    ∧ ((login_step_2 ⟨.ok (), .authorized, .ok (), "s", false, .ok ()⟩
          [("+5511999999999", "h4sh")] [] ⟨"+5511999999999", "12345", none⟩).cache =
        [("+5511999999999", "h4sh")]
      ∧ (login_step_2 ⟨.ok (), .authorized, .ok (), "s", false, .ok ()⟩
          [("+5511999999999", "h4sh")] [] ⟨"+5511999999999", "12345", none⟩).users = []
      ∧ ((login_step_2 ⟨.ok (), .authorized, .ok (), "s", false, .ok ()⟩
            [("+5511999999999", "h4sh")] [] ⟨"+5511999999999", "12345", none⟩).resp =
           .httpError 500 "Erro interno: Banco de dados Firebase não conectado."
         ∨ ∃ m, (FinishEnv.mk (.ok ()) .authorized (.ok ()) "s" false (.ok ())).dbSet = .error m
             ∧ (login_step_2 ⟨.ok (), .authorized, .ok (), "s", false, .ok ()⟩
                 [("+5511999999999", "h4sh")] [] ⟨"+5511999999999", "12345", none⟩).resp =
               .httpError 500 ("Logou no Telegram, mas erro ao salvar no Firebase: " ++ m))) :=
  ⟨by decide,
   C9_failed_store_keeps_pending ⟨.ok (), .authorized, .ok (), "s", false, .ok ()⟩
     [("+5511999999999", "h4sh")] [] ⟨"+5511999999999", "12345", none⟩ "h4sh"
     (by decide) rfl (Or.inl rfl) (Or.inl rfl)⟩

/-- Claim C10: send_alert never changes the users collection or the pending
cache, whatever the environment, state or request: every outcome carries
them through unchanged. -/
theorem C10_send_alert_pure_reader (env : AlertEnv) (cache : Cache)
    (users : Users) (alert : AlertRequest) :
    (send_alert env cache users alert).users = users
    ∧ (send_alert env cache users alert).cache = cache := by
  unfold send_alert
  repeat' split
  all_goals exact ⟨rfl, rfl⟩

/-- Claim C1 (divergence): a send-alert whose stored session fails the
authorization check does NOT return 401 as the spec requires. The
HTTPException(401, "O login expirou...") raised inside the try block of
send_alert (main.py line 197) is an Exception, so the except clause at
line 212 catches it and re-raises a 500 wrapping str(e). At a concrete
input with a stored token and an unauthorized connection the response is
that 500 — and, as the claim also states, no send operation is invoked. -/
theorem C1_expired_session_rewrapped_as_500 :
    (send_alert ⟨true, .ok (), .ok false, .ok (), .ok ()⟩ []
        [("+5511999999999", ⟨"+5511999999999", some "tok"⟩)]
        ⟨"+5511999999999", "+5571985534124", "help", 12, 13⟩).resp
      = .httpError 500 (failSend "401: O login expirou. Faça autenticação novamente.")
    ∧ sends (send_alert ⟨true, .ok (), .ok false, .ok (), .ok ()⟩ []
        [("+5511999999999", ⟨"+5511999999999", some "tok"⟩)]
        ⟨"+5511999999999", "+5571985534124", "help", 12, 13⟩).trace = [] := by
  decide

end ApiTelegram
